import Mathlib

/-!
Verification development for the device command relay server (`src/main.py`).

The server keeps one process-local mapping `active_connections` from a device
identifier to the WebSocket of its live connection, forwards commands submitted
over HTTP (`send_command`, `POST /send`) to the mapped connection, and runs one
inbound-message loop per device connection (`websocket_endpoint`,
`/ws/{device_id}`), which registers the connection, classifies inbound
messages, and deletes its registry entry on termination.

The embedding below is sequential and explicit-state: WebSocket instances are
identified by natural numbers, the registry is an insertion-ordered association
list mirroring a Python `dict`, channel I/O outcomes (whether a write to a
given socket succeeds, the stream of inbound events a loop sees) are
parameters, and `json.loads` is modelled by an executable parser `jsonParse`
over a JSON value type covering objects, arrays, strings, decimal numbers,
booleans and null (no `\u` escapes and no exponent notation, which no input
considered here uses).
-/

/-- JSON values as produced by Python's `json.loads`: `null`, booleans,
numbers, strings, arrays and objects.  A number is kept unevaluated as a
mantissa and a decimal shift (`num m k` denotes `m / 10^k`), so `123` parses
to `num 123 0` and `1.5` to `num 15 1`. -/
inductive Json where
  | null : Json
  | bool (b : Bool) : Json
  | num (mantissa : Int) (shift : Nat) : Json
  | str (s : String) : Json
  | arr (elems : List Json) : Json
  | obj (fields : List (String × Json)) : Json

/-- Python equality of an arbitrary value `v` against the string literal `s`
(`v == s` is `True` exactly when `v` is that string). -/
def Json.isStr (v : Json) (s : String) : Bool :=
  match v with
  | .str t => t = s
  | _ => false

/-- Opening-brace character, `'{'`. -/
def lbrace : Char := Char.ofNat 123

/-- Closing-brace character, `'}'`. -/
def rbrace : Char := Char.ofNat 125

/-- JSON whitespace: space, tab, line feed, carriage return (code points
32, 9, 10, 13). -/
def isJsonWs (c : Char) : Bool :=
  c.toNat = 32 ∨ c.toNat = 9 ∨ c.toNat = 10 ∨ c.toNat = 13

/-- Drop leading JSON whitespace. -/
def skipWs (cs : List Char) : List Char :=
  match cs with
  | [] => []
  | c :: rest => if isJsonWs c then skipWs rest else cs

/-- Value of a decimal digit character, or `none` (code points 48-57 are the
digits 0-9). -/
def digitVal (c : Char) : Option Nat :=
  let n := c.toNat
  if 47 < n ∧ n < 58 then some (n - 48) else none

/-- Split a maximal run of decimal digits off the front of the input,
returning their values. -/
def takeDigits (cs : List Char) : List Nat × List Char :=
  match cs with
  | [] => ([], [])
  | c :: rest =>
    match digitVal c with
    | none => ([], cs)
    | some d =>
      let (ds, r) := takeDigits rest
      (d :: ds, r)

/-- Read a digit list as a natural number, most significant digit first. -/
def digitsToNat (ds : List Nat) : Nat :=
  ds.foldl (fun a d => a * 10 + d) 0

/-- Translate a JSON string escape character (the character after `\`): the
self-representing ones, then `n`, `t`, `r`, `b`, `f` to their control
codes (10, 9, 13, 8, 12). -/
def escChar (e : Char) : Option Char :=
  if e = '"' ∨ e = '\\' ∨ e = '/' then some e
  else if e = 'n' then some (Char.ofNat 10)
  else if e = 't' then some (Char.ofNat 9)
  else if e = 'r' then some (Char.ofNat 13)
  else if e = 'b' then some (Char.ofNat 8)
  else if e = 'f' then some (Char.ofNat 12)
  else none

/-- Parse the body of a JSON string after the opening quote, up to and
including the closing quote; returns the decoded string and the rest. -/
def parseStringBody : List Char → Option (String × List Char)
  | [] => none
  | '"' :: cs => some ("", cs)
  | '\\' :: cs =>
    match cs with
    | [] => none
    | e :: cs' =>
      match escChar e with
      | none => none
      | some c =>
        match parseStringBody cs' with
        | none => none
        | some (s, r) => some (String.singleton c ++ s, r)
  | c :: cs =>
    match parseStringBody cs with
    | none => none
    | some (s, r) => some (String.singleton c ++ s, r)

/-- Insert-or-overwrite a key in an object's field list, mirroring Python
`dict` assignment (last duplicate key wins, position of an existing key is
kept). -/
def setField (fs : List (String × Json)) (k : String) (v : Json) :
    List (String × Json) :=
  if fs.any (fun p => p.1 = k) then
    fs.map (fun p => if p.1 = k then (k, v) else p)
  else
    fs ++ [(k, v)]

/-- Parse a JSON number after its leading sign, given the input starting at
the first digit.  Python's grammar: the integer part is `0` or starts with a
nonzero digit; an optional fraction follows a dot. -/
def parseNumTail (neg : Bool) : List Char → Option (Json × List Char)
  | cs =>
    match takeDigits cs with
    | ([], _) => none
    | (d :: ds, r) =>
      if d = 0 ∧ ds ≠ [] then none
      else
        let intPart := digitsToNat (d :: ds)
        match r with
        | '.' :: r' =>
          match takeDigits r' with
          | ([], _) => none
          | (fs, r'') =>
            let m : Int := (intPart * 10 ^ fs.length + digitsToNat fs : Nat)
            some (Json.num (if neg then -m else m) fs.length, r'')
        | _ =>
          some (Json.num (if neg then (-(intPart : Int)) else intPart) 0, r)

mutual

/-- Parse one JSON value (fuel-indexed recursive descent). -/
def parseValue : Nat → List Char → Option (Json × List Char)
  | 0, _ => none
  | fuel + 1, cs =>
    match skipWs cs with
    | [] => none
    | c :: cs' =>
      if c = 'n' then
        match cs' with
        | 'u' :: 'l' :: 'l' :: r => some (Json.null, r)
        | _ => none
      else if c = 't' then
        match cs' with
        | 'r' :: 'u' :: 'e' :: r => some (Json.bool true, r)
        | _ => none
      else if c = 'f' then
        match cs' with
        | 'a' :: 'l' :: 's' :: 'e' :: r => some (Json.bool false, r)
        | _ => none
      else if c = '"' then
        match parseStringBody cs' with
        | none => none
        | some (s, r) => some (Json.str s, r)
      else if c = '[' then
        match skipWs cs' with
        | c' :: r =>
          if c' = ']' then some (Json.arr [], r)
          else
            match parseArrayItems fuel (c' :: r) with
            | none => none
            | some (vs, r') => some (Json.arr vs, r')
        | [] => none
      else if c = lbrace then
        match skipWs cs' with
        | c' :: r =>
          if c' = rbrace then some (Json.obj [], r)
          else
            match parseObjItems fuel (c' :: r) with
            | none => none
            | some (ps, r') =>
              some (Json.obj (ps.foldl (fun acc p => setField acc p.1 p.2) []), r')
        | [] => none
      else if c = '-' then parseNumTail true cs'
      else if (digitVal c).isSome then parseNumTail false (c :: cs')
      else none

/-- Parse the comma-separated items of a nonempty JSON array, up to and
including the closing bracket. -/
def parseArrayItems : Nat → List Char → Option (List Json × List Char)
  | 0, _ => none
  | fuel + 1, cs =>
    match parseValue fuel cs with
    | none => none
    | some (v, r) =>
      match skipWs r with
      | c :: r' =>
        if c = ',' then
          match parseArrayItems fuel r' with
          | none => none
          | some (vs, r'') => some (v :: vs, r'')
        else if c = ']' then some ([v], r')
        else none
      | [] => none

/-- Parse the comma-separated `key: value` members of a nonempty JSON object,
up to and including the closing brace. -/
def parseObjItems : Nat → List Char → Option (List (String × Json) × List Char)
  | 0, _ => none
  | fuel + 1, cs =>
    match skipWs cs with
    | c :: r =>
      if c = '"' then
        match parseStringBody r with
        | none => none
        | some (k, r1) =>
          match skipWs r1 with
          | c1 :: r2 =>
            if c1 = ':' then
              match parseValue fuel r2 with
              | none => none
              | some (v, r3) =>
                match skipWs r3 with
                | c2 :: r4 =>
                  if c2 = ',' then
                    match parseObjItems fuel r4 with
                    | none => none
                    | some (ps, r5) => some ((k, v) :: ps, r5)
                  else if c2 = rbrace then some ([(k, v)], r4)
                  else none
                | [] => none
            else none
          | [] => none
      else none
    | [] => none

end

/-- Model of Python's `json.loads` as used at `src/main.py` line 164: parse
the whole string as one JSON value (surrounding whitespace allowed); `none`
models `json.JSONDecodeError`. -/
def jsonParse (s : String) : Option Json :=
  match parseValue (2 * s.length + 2) (skipWs s.toList) with
  | some (v, rest) => if skipWs rest = [] then some v else none
  | none => none

/-- Python `message.get(k)` on a parsed object's fields: the value stored
under `k`, or `none` when the key is absent.  A stored `null` is returned as
`some Json.null`, exactly as `dict.get` returns a stored `None`. -/
def dictGet (fields : List (String × Json)) (k : String) : Option Json :=
  (fields.find? (fun p => p.1 = k)).map (fun p => p.2)

/-- Python `message.get(k, d)`: the stored value, or the default `d` only
when the key is absent. -/
def dictGetD (fields : List (String × Json)) (k : String) (d : Json) : Json :=
  (dictGet fields k).getD d

/-- The registry `active_connections : Dict[str, WebSocket]`
(src/main.py line 40), modelled as an insertion-ordered association list from
device identifier to a WebSocket instance, with instances identified by
natural numbers. -/
abbrev Registry := List (String × Nat)

/-- Python `active_connections[device_id] = websocket` (src/main.py
line 146): insert, or overwrite in place when the key is present.  This is
the spec's `register(id, session)`. -/
def registerConn (device_id : String) (websocket : Nat) (conns : Registry) :
    Registry :=
  if conns.any (fun p => p.1 = device_id) then
    conns.map (fun p => if p.1 = device_id then (device_id, websocket) else p)
  else
    conns ++ [(device_id, websocket)]

/-- Python `active_connections[device_id]` guarded by
`device_id in active_connections` (src/main.py lines 98 and 106): the current
WebSocket for the identifier, or `none`.  This is the spec's `lookup(id)`. -/
def lookupConn (device_id : String) (conns : Registry) : Option Nat :=
  (conns.find? (fun p => p.1 = device_id)).map (fun p => p.2)

/-- Python `del active_connections[device_id]`: remove the entry for the
key (a `dict` holds at most one). -/
def eraseConn (device_id : String) (conns : Registry) : Registry :=
  conns.filter (fun p => ¬ p.1 = device_id)

/-- The cleanup in the `finally` block of `websocket_endpoint`
(src/main.py lines 194-195):
`if device_id in active_connections: del active_connections[device_id]`.
This realizes the spec's `deregister(id, session)`; the `session` argument is
unused because the code deletes whatever entry is current, without comparing
it to the terminating session. -/
def deregister (device_id : String) (_session : Nat) (conns : Registry) :
    Registry :=
  if conns.any (fun p => p.1 = device_id) then eraseConn device_id conns
  else conns

/-- The registry mutation in the `except` handler of `send_command`
(src/main.py lines 125-126):
`if device_id in active_connections: del active_connections[device_id]`,
applied to the registry as it stands when the write failure is handled. -/
def sendFailCleanup (device_id : String) (conns : Registry) : Registry :=
  if conns.any (fun p => p.1 = device_id) then eraseConn device_id conns
  else conns

/-- The response model `SendCommandResponse` (src/main.py lines 52-55). -/
structure SendCommandResponse where
  success : Bool
  message : String
  device_id : String
deriving DecidableEq, Repr

/-- The outbound payload `command_data = \x7b"cmd": cmd, "timestamp": ...\x7d`
(src/main.py lines 110-113), kept structured (the code serializes it with
`json.dumps` just before the write). -/
structure CommandData where
  cmd : String
  timestamp : Int
deriving DecidableEq, Repr

/-- The `POST /send` handler `send_command` (src/main.py lines 82-132) after
API-key validation.  `writeOk` tells whether `websocket.send_text` succeeds
on a given instance, `now` is the clock reading used for the timestamp, and
`excText` is `str(e)` for the caught exception on the failure path.  Returns
the HTTP response, the registry afterwards, and the list of writes the
device channel observed (instance paired with payload). -/
def send_command (writeOk : Nat → Bool) (now : Int) (excText : String)
    (device_id cmd : String) (conns : Registry) :
    SendCommandResponse × Registry × List (Nat × CommandData) :=
  match lookupConn device_id conns with
  | none =>
    ({ success := false
       message := "Device " ++ device_id ++ " is not connected"
       device_id := device_id }, conns, [])
  | some websocket =>
    let command_data : CommandData := { cmd := cmd, timestamp := now }
    if writeOk websocket then
      ({ success := true
         message := "Command '" ++ cmd ++ "' sent to device " ++ device_id
         device_id := device_id }, conns, [(websocket, command_data)])
    else
      ({ success := false
         message := "Error sending command: " ++ excText
         device_id := device_id }, sendFailCleanup device_id conns, [])

/-- The `GET /` handler `root` (src/main.py lines 66-73), returning the
status snapshot `\x7bstatus, active_connections: len(...),
devices: list(....keys())\x7d`. -/
structure StatusResponse where
  status : String
  active_connections : Nat
  devices : List String
deriving DecidableEq, Repr

/-- Embeds `root` (src/main.py lines 66-73). -/
def root (conns : Registry) : StatusResponse :=
  { status := "online"
    active_connections := conns.length
    devices := conns.map (fun p => p.1) }

/-- Log lines emitted by the message loop of `websocket_endpoint`
(src/main.py lines 158-188), one constructor per `logger` call site. -/
inductive LogEntry where
  | receivedMessage (device_id : String) (message : Json) : LogEntry
  | responseData (device_id : String) (v : Json) : LogEntry
  | statusData (device_id : String) (v : Json) : LogEntry
  | errorData (device_id : String) (v : Json) : LogEntry
  | plainText (device_id : String) (data : String) : LogEntry
  | disconnected (device_id : String) : LogEntry
  | handlingError (device_id : String) : LogEntry

/-- Outcome of the body handling one received text (src/main.py
lines 163-181): either the iteration completes and the loop continues
(`cont`), or an uncaught exception escapes to the per-iteration
`except Exception` handler, which logs and breaks (`fatal`). -/
inductive HandleResult where
  | cont (logs : List LogEntry) : HandleResult
  | fatal (logs : List LogEntry) : HandleResult

/-- Embeds src/main.py lines 163-181: `json.loads(data)`; on
`JSONDecodeError` log the data as plain text; otherwise log the message and
branch on `message.get("type", "response")`.  When the parsed value is not a
`dict`, `message.get` raises `AttributeError`, which is not caught here
(`fatal`). -/
def handleData (device_id data : String) : HandleResult :=
  match jsonParse data with
  | none => .cont [LogEntry.plainText device_id data]
  | some message =>
    match message with
    | Json.obj fields =>
      let msg_type := dictGetD fields "type" (Json.str "response")
      if msg_type.isStr "response" then
        .cont [LogEntry.receivedMessage device_id message,
               LogEntry.responseData device_id (dictGetD fields "data" (Json.str ""))]
      else if msg_type.isStr "status" then
        .cont [LogEntry.receivedMessage device_id message,
               LogEntry.statusData device_id (dictGetD fields "status" (Json.str ""))]
      else if msg_type.isStr "error" then
        .cont [LogEntry.receivedMessage device_id message,
               LogEntry.errorData device_id (dictGetD fields "error" (Json.str ""))]
      else
        .cont [LogEntry.receivedMessage device_id message]
    | _ => .fatal [LogEntry.receivedMessage device_id message]

/-- One outcome of `await websocket.receive_text()` (src/main.py line 161):
a text message, a `WebSocketDisconnect`, or another transport exception. -/
inductive RecvEvent where
  | msg (data : String) : RecvEvent
  | disconnect : RecvEvent
  | fault (e : String) : RecvEvent
deriving DecidableEq, Repr

/-- How the `while True` loop of `websocket_endpoint` ended: `break` from
the `except WebSocketDisconnect` handler, `break` from the
`except Exception` handler, or not yet (the modelled event stream ran out
while the loop would still be waiting). -/
inductive LoopExit where
  | disconnected : LoopExit
  | handlingError : LoopExit
  | stillRunning : LoopExit
deriving DecidableEq, Repr

/-- The message loop of `websocket_endpoint` (src/main.py lines 158-188),
run over a stream of receive outcomes: per iteration, receive; on a text
message run `handleData` and continue unless it was fatal; on
`WebSocketDisconnect` log and break; on any other exception log and break. -/
def sessionLoop (device_id : String) : List RecvEvent → List LogEntry × LoopExit
  | [] => ([], .stillRunning)
  | RecvEvent.disconnect :: _ => ([LogEntry.disconnected device_id], .disconnected)
  | RecvEvent.fault _ :: _ => ([LogEntry.handlingError device_id], .handlingError)
  | RecvEvent.msg data :: rest =>
    match handleData device_id data with
    | .cont logs =>
      let (ls, ex) := sessionLoop device_id rest
      (logs ++ ls, ex)
    | .fatal logs => (logs ++ [LogEntry.handlingError device_id], .handlingError)

/-- One registry operation performed by some connection's
`websocket_endpoint`: its registration on connect (src/main.py line 146) or
its cleanup on termination (src/main.py lines 194-195). -/
inductive RegAction where
  | reg (device_id : String) (websocket : Nat) : RegAction
  | dereg (device_id : String) (websocket : Nat) : RegAction
deriving DecidableEq, Repr

/-- Apply one registry operation. -/
def applyAction (conns : Registry) : RegAction → Registry
  | .reg id w => registerConn id w conns
  | .dereg id w => deregister id w conns

/-- Apply a history of registry operations, oldest first. -/
def applyActions (acts : List RegAction) (conns : Registry) : Registry :=
  acts.foldl applyAction conns

theorem lookupConn_eq_none_iff (id : String) (conns : Registry) :
    lookupConn id conns = none ↔ conns.any (fun p => (p.1 = id : Bool)) = false := by
  simp [lookupConn, List.find?_eq_none, List.any_eq_false]

theorem lookupConn_eraseConn_self (id : String) (conns : Registry) :
    lookupConn id (eraseConn id conns) = none := by
  rw [lookupConn_eq_none_iff]
  simp [eraseConn, List.any_eq_false]

theorem lookupConn_deregister_self (id : String) (w : Nat) (conns : Registry) :
    lookupConn id (deregister id w conns) = none := by
  unfold deregister
  by_cases h : conns.any (fun p => (p.1 = id : Bool)) = true
  · simp [h, lookupConn_eraseConn_self]
  · simp only [Bool.not_eq_true] at h
    simp [h]
    rw [lookupConn_eq_none_iff]
    exact h

theorem deregister_of_absent (id : String) (w : Nat) (conns : Registry)
    (h : lookupConn id conns = none) : deregister id w conns = conns := by
  unfold deregister
  rw [lookupConn_eq_none_iff] at h
  simp [h]
theorem find?_map_replace (id : String) (w : Nat) (conns : Registry)
    (h : conns.any (fun p => (p.1 = id : Bool)) = true) :
    (conns.map (fun p => if p.1 = id then (id, w) else p)).find?
      (fun p => (p.1 = id : Bool)) = some (id, w) := by
  induction conns with
  | nil => simp at h
  | cons q rest ih =>
    by_cases hq : q.1 = id
    · simp [List.find?, hq]
    · simp only [List.any_cons, Bool.or_eq_true, decide_eq_true_eq] at h
      rcases h with h | h
    
      · exact absurd h hq
      · simp [List.find?, hq, ih h]

theorem lookupConn_registerConn_self (id : String) (w : Nat) (conns : Registry) :
    lookupConn id (registerConn id w conns) = some w := by
  unfold registerConn
  by_cases h : conns.any (fun p => (p.1 = id : Bool)) = true
  · simp [lookupConn, h, find?_map_replace id w conns h]
  · simp only [Bool.not_eq_true] at h
    simp only [h, if_neg, Bool.false_eq_true, not_false_eq_true, if_false]
    have hnone : conns.find? (fun p => (p.1 = id : Bool)) = none := by
      have := (lookupConn_eq_none_iff id conns).mpr h
      simpa [lookupConn, Option.map_eq_none] using this
    simp [lookupConn, List.find?_append, hnone, List.find?]
theorem lookupConn_eraseConn_ne (id id' : String) (hne : id ≠ id')
    (conns : Registry) :
    lookupConn id (eraseConn id' conns) = lookupConn id conns := by
  have hne' : id' ≠ id := Ne.symm hne
  induction conns with
  | nil => rfl
  | cons q rest ih =>
    by_cases hq : q.1 = id'
    · have hqi : ¬ q.1 = id := fun hh => hne (by rw [← hh]; exact hq)
      simpa [eraseConn, lookupConn, List.filter_cons, List.find?, hq, hqi, hne, hne'] using ih
    · by_cases hqi : q.1 = id
      · simp [eraseConn, lookupConn, List.filter_cons, List.find?, hq, hqi, hne, hne']
      · simpa [eraseConn, lookupConn, List.filter_cons, List.find?, hq, hqi, hne, hne'] using ih

theorem lookupConn_deregister_ne (id id' : String) (hne : id ≠ id') (w : Nat)
    (conns : Registry) :
    lookupConn id (deregister id' w conns) = lookupConn id conns := by
  unfold deregister
  by_cases h : conns.any (fun p => (p.1 = id' : Bool)) = true
  · simp only [h, if_true]
    exact lookupConn_eraseConn_ne id id' hne conns
  · simp only [Bool.not_eq_true] at h
    simp [h]

theorem sendFailCleanup_eq_deregister (id : String) (conns : Registry) :
    sendFailCleanup id conns = deregister id 0 conns := rfl

theorem deregister_idem (id : String) (w : Nat) (conns : Registry) :
    deregister id w (deregister id w conns) = deregister id w conns :=
  deregister_of_absent id w _ (lookupConn_deregister_self id w conns)

theorem find?_map_replace_ne (id id' : String) (hne : id ≠ id') (w : Nat)
    (conns : Registry) :
    (conns.map (fun p => if p.1 = id' then (id', w) else p)).find?
      (fun p => (p.1 = id : Bool)) = conns.find? (fun p => (p.1 = id : Bool)) := by
  induction conns with
  | nil => rfl
  | cons q rest ih =>
    simp only [List.map_cons]
    by_cases hq : q.1 = id'
    · rw [if_pos hq]
      rw [List.find?_cons_of_neg _ (by simp; exact fun hh => hne hh.symm)]
      rw [List.find?_cons_of_neg _ (by simp [hq]; exact fun hh => hne hh.symm)]
      exact ih
    · rw [if_neg hq]
      by_cases hqi : q.1 = id
      · rw [List.find?_cons_of_pos _ (by simp [hqi]), List.find?_cons_of_pos _ (by simp [hqi])]
      · rw [List.find?_cons_of_neg _ (by simp [hqi]), List.find?_cons_of_neg _ (by simp [hqi])]
        exact ih

theorem lookupConn_registerConn_ne (id id' : String) (hne : id ≠ id') (w : Nat)
    (conns : Registry) :
    lookupConn id (registerConn id' w conns) = lookupConn id conns := by
  unfold registerConn
  by_cases h : conns.any (fun p => (p.1 = id' : Bool)) = true
  · simp only [h, if_true, lookupConn]
    rw [find?_map_replace_ne id id' hne w conns]
  · simp only [Bool.not_eq_true] at h
    simp only [h, Bool.false_eq_true, if_false, lookupConn]
    rw [List.find?_append]
    have h2 : List.find? (fun p => (p.1 = id : Bool)) [(id', w)] = none := by
      simp; exact fun hh => hne hh.symm
    rw [h2]
    cases conns.find? (fun p => (p.1 = id : Bool)) <;> rfl

theorem lookupConn_applyActions_eq_none (id : String) (acts : List RegAction)
    (hnr : ∀ w, RegAction.reg id w ∉ acts) (conns : Registry)
    (h0 : lookupConn id conns = none) :
    lookupConn id (applyActions acts conns) = none := by
  induction acts generalizing conns with
  | nil => exact h0
  | cons a rest ih =>
    have hnr' : ∀ w, RegAction.reg id w ∉ rest := by
      intro w hw
      exact hnr w (List.mem_cons_of_mem a hw)
    have hstep : lookupConn id (applyAction conns a) = none := by
      cases a with
      | reg id' w =>
        have hne : id ≠ id' := by
          intro hh
          exact hnr w (by rw [hh]; exact List.mem_cons_self _ _)
        rw [show applyAction conns (RegAction.reg id' w) = registerConn id' w conns from rfl]
        rw [lookupConn_registerConn_ne id id' hne w conns]
        exact h0
      | dereg id' w =>
        by_cases hne : id = id'
        · rw [hne]
          exact lookupConn_deregister_self id' w conns
        · rw [show applyAction conns (RegAction.dereg id' w) = deregister id' w conns from rfl]
          rw [lookupConn_deregister_ne id id' hne w conns]
          exact h0
    rw [show applyActions (a :: rest) conns = applyActions rest (applyAction conns a) from rfl]
    exact ih hnr' (applyAction conns a) hstep

theorem mem_devices_iff_lookupConn (id : String) (conns : Registry) :
    id ∈ conns.map (fun p => p.1) ↔ ∃ w, lookupConn id conns = some w := by
  induction conns with
  | nil => simp [lookupConn]
  | cons q rest ih =>
    by_cases hq : q.1 = id
    · simp [lookupConn, List.find?, hq]
    · simp only [List.map_cons, List.mem_cons]
      rw [show (id = q.1 ∨ id ∈ rest.map (fun p => p.1)) ↔ (id ∈ rest.map (fun p => p.1)) from
        by constructor
           · intro h
             rcases h with h | h
             · exact absurd h.symm hq
             · exact h
           · exact Or.inr]
      rw [ih]
      simp [lookupConn, List.find?, hq]

/-- C7: register/lookup round-trip.  Looking an identifier up immediately
after registering a session under it returns exactly that session, and an
identifier never registered by any operation in a history of
register/deregister calls starting from the empty registry is looked up as
`none`. -/
theorem register_lookup_roundtrip (id1 : String) (w1 : Nat) (conns : Registry)
    (id2 : String) (acts : List RegAction)
    (hnever : ∀ w, RegAction.reg id2 w ∉ acts) :
    lookupConn id1 (registerConn id1 w1 conns) = some w1 ∧
    lookupConn id2 (applyActions acts []) = none :=
  ⟨lookupConn_registerConn_self id1 w1 conns,
   lookupConn_applyActions_eq_none id2 acts hnever [] rfl⟩

/-- Witness for C7 at a concrete history. -/
theorem register_lookup_roundtrip_witness :
    lookupConn "pi-1" (registerConn "pi-1" 0 []) = some 0 ∧
    lookupConn "pi-99" (applyActions [RegAction.reg "pi-1" 0, RegAction.dereg "pi-1" 0] []) = none :=
  register_lookup_roundtrip "pi-1" 0 [] "pi-99"
    [RegAction.reg "pi-1" 0, RegAction.dereg "pi-1" 0]
    (by intro w hw; simp at hw)

/-- C8: deregistration is idempotent.  Running the cleanup
`if device_id in active_connections: del active_connections[device_id]`
twice leaves the same registry as running it once, and when the mapping is
already absent the cleanup returns the registry unchanged (the guard makes
the deletion raise no `KeyError`; the embedding is total). -/
theorem deregister_idempotent (id : String) (w : Nat) (conns : Registry) :
    deregister id w (deregister id w conns) = deregister id w conns ∧
    (lookupConn id conns = none → deregister id w conns = conns) :=
  ⟨deregister_idem id w conns, deregister_of_absent id w conns⟩

/-- Witness for C8 at a concrete registry. -/
theorem deregister_idempotent_witness :
    deregister "pi-1" 0 (deregister "pi-1" 0 [("pi-1", 0)]) = deregister "pi-1" 0 [("pi-1", 0)] ∧
    deregister "pi-2" 7 [("pi-1", 0)] = [("pi-1", 0)] :=
  ⟨(deregister_idempotent "pi-1" 0 [("pi-1", 0)]).1,
   (deregister_idempotent "pi-2" 7 [("pi-1", 0)]).2 rfl⟩

/-- C1 counterexample: register session 0 under `pi-1`, then session 1 under
the same identifier, then run the terminating session 0's cleanup
(src/main.py lines 194-195).  The claim says this cleanup is a no-op and
`lookup` still returns session 1; in fact the cleanup deletes the entry
unconditionally and the lookup returns `none`. -/
theorem deregister_stale_removes_newer_cx :
    lookupConn "pi-1" (deregister "pi-1" 0 (registerConn "pi-1" 1 (registerConn "pi-1" 0 []))) ≠ some 1 ∧
    lookupConn "pi-1" (deregister "pi-1" 0 (registerConn "pi-1" 1 (registerConn "pi-1" 0 []))) = none := by
  decide

/-- C1 as amended: after `register(id, s1)` then `register(id, s2)`, the
terminating session s1's cleanup `deregister(id, s1)` removes the mapping
unconditionally — the code has no instance-match guard — so a subsequent
`lookup(id)` returns `none` (not `s2`). -/
theorem deregister_unconditional_after_supersede (id : String) (s1 s2 : Nat)
    (_hne : s1 ≠ s2) (conns : Registry) :
    lookupConn id (deregister id s1 (registerConn id s2 (registerConn id s1 conns))) = none :=
  lookupConn_deregister_self id s1 _

/-- Witness for the amended C1 at concrete sessions 0 and 1. -/
theorem deregister_unconditional_after_supersede_witness :
    lookupConn "pi-1" (deregister "pi-1" 0 (registerConn "pi-1" 1 (registerConn "pi-1" 0 []))) = none :=
  deregister_unconditional_after_supersede "pi-1" 0 1 (by decide) []

/-- C3 counterexample: the registry maps `pi-1` to session 1 while the failed
write of the dispatcher was attempted on the older session 0; the claim says
the dispatcher's proactive cleanup (src/main.py lines 125-126) leaves the
newer entry unchanged, but it removes it. -/
theorem sendFailCleanup_removes_newer_cx :
    sendFailCleanup "pi-1" [("pi-1", 1)] ≠ [("pi-1", 1)] ∧
    lookupConn "pi-1" (sendFailCleanup "pi-1" [("pi-1", 1)]) = none := by
  decide

/-- C3 as amended: when the write fails, the dispatcher's cleanup removes
whatever entry is currently registered for the identifier — even a newer
session different from the one the write was attempted on — so a subsequent
lookup returns `none`; there is no instance-match guard. -/
theorem sendFailCleanup_unconditional (id : String) (sOld sNew : Nat)
    (_hne : sNew ≠ sOld) (conns : Registry) (_hreg : lookupConn id conns = some sNew) :
    lookupConn id (sendFailCleanup id conns) = none := by
  rw [sendFailCleanup_eq_deregister]
  exact lookupConn_deregister_self id 0 conns

/-- Witness for the amended C3 at a concrete registry. -/
theorem sendFailCleanup_unconditional_witness :
    lookupConn "pi-1" (sendFailCleanup "pi-1" [("pi-1", 1)]) = none :=
  sendFailCleanup_unconditional "pi-1" 0 1 (by decide) [("pi-1", 1)] rfl

/-- C4: dispatching to a registered identifier whose session accepts the
write returns `success=true`, and the session's channel observes exactly one
write whose payload is the envelope of the given command string and the
clock reading used as timestamp. -/
theorem dispatch_success_exactly_one_write (writeOk : Nat → Bool) (now : Int)
    (excText : String) (id cmd : String) (conns : Registry) (w : Nat)
    (hreg : lookupConn id conns = some w) (hok : writeOk w = true) :
    (send_command writeOk now excText id cmd conns).1.success = true ∧
    (send_command writeOk now excText id cmd conns).2.2 =
      [(w, { cmd := cmd, timestamp := now })] := by
  unfold send_command
  rw [hreg]
  simp [hok]

/-- Witness for C4 at a concrete registry and command. -/
theorem dispatch_success_exactly_one_write_witness :
    (send_command (fun _ => true) 17 "" "pi-1" "reboot" [("pi-1", 5)]).1.success = true ∧
    (send_command (fun _ => true) 17 "" "pi-1" "reboot" [("pi-1", 5)]).2.2 =
      [(5, { cmd := "reboot", timestamp := 17 })] :=
  dispatch_success_exactly_one_write (fun _ => true) 17 "" "pi-1" "reboot"
    [("pi-1", 5)] 5 rfl rfl

/-- C5: when the identifier is registered but the single write attempt
fails, `send_command` returns `success=false` (a structured response — the
exception is caught, not propagated) and a subsequent lookup of the
identifier in the resulting registry returns `none`. -/
theorem dispatch_write_failure_cleanup (writeOk : Nat → Bool) (now : Int)
    (excText : String) (id cmd : String) (conns : Registry) (w : Nat)
    (hreg : lookupConn id conns = some w) (hfail : writeOk w = false) :
    (send_command writeOk now excText id cmd conns).1.success = false ∧
    lookupConn id (send_command writeOk now excText id cmd conns).2.1 = none := by
  unfold send_command
  rw [hreg]
  simp [hfail]
  rw [sendFailCleanup_eq_deregister]
  exact lookupConn_deregister_self id 0 conns

/-- Witness for C5 at a concrete registry with a failing channel. -/
theorem dispatch_write_failure_cleanup_witness :
    (send_command (fun _ => false) 17 "closed" "pi-1" "reboot" [("pi-1", 5)]).1.success = false ∧
    lookupConn "pi-1" (send_command (fun _ => false) 17 "closed" "pi-1" "reboot" [("pi-1", 5)]).2.1 = none :=
  dispatch_write_failure_cleanup (fun _ => false) 17 "closed" "pi-1" "reboot"
    [("pi-1", 5)] 5 rfl rfl

/-- C6: dispatching to an identifier absent from the registry returns
`success=false` with the message stating the device is not connected, raises
nothing (the embedding returns a structured response), leaves the registry
unchanged, and performs no write. -/
theorem dispatch_not_connected (writeOk : Nat → Bool) (now : Int)
    (excText : String) (id cmd : String) (conns : Registry)
    (habs : lookupConn id conns = none) :
    (send_command writeOk now excText id cmd conns).1 =
      { success := false
        message := "Device " ++ id ++ " is not connected"
        device_id := id } ∧
    (send_command writeOk now excText id cmd conns).2.1 = conns ∧
    (send_command writeOk now excText id cmd conns).2.2 = [] := by
  unfold send_command
  rw [habs]
  exact ⟨rfl, rfl, rfl⟩

/-- Witness for C6 at a concrete registry not containing the identifier. -/
theorem dispatch_not_connected_witness :
    (send_command (fun _ => true) 17 "" "pi-99" "reboot" [("pi-1", 5)]).1 =
      { success := false
        message := "Device pi-99 is not connected"
        device_id := "pi-99" } ∧
    (send_command (fun _ => true) 17 "" "pi-99" "reboot" [("pi-1", 5)]).2.1 = [("pi-1", 5)] ∧
    (send_command (fun _ => true) 17 "" "pi-99" "reboot" [("pi-1", 5)]).2.2 = [] := by
  have h := dispatch_not_connected (fun _ => true) 17 "" "pi-99" "reboot" [("pi-1", 5)] rfl
  simpa using h

/-- C9: the status snapshot is consistent with the registry: the reported
`active_connections` count equals the length of the reported `devices` list,
an identifier is in `devices` exactly when it is currently registered
(lookup succeeds), and when the registry's keys are duplicate-free (as for a
Python `dict`) the `devices` list has no duplicates, so the count is the
number of registered identifiers. -/
theorem status_snapshot_consistent (conns : Registry) :
    (root conns).active_connections = (root conns).devices.length ∧
    (∀ id, id ∈ (root conns).devices ↔ ∃ w, lookupConn id conns = some w) ∧
    ((conns.map (fun p => p.1)).Nodup → (root conns).devices.Nodup) := by
  refine ⟨by simp [root], ?_, fun h => h⟩
  intro id
  simpa [root] using mem_devices_iff_lookupConn id conns

/-- Witness for C9 at a concrete registry. -/
theorem status_snapshot_consistent_witness :
    (root [("pi-1", 5)]).active_connections = (root [("pi-1", 5)]).devices.length ∧
    ("pi-1" ∈ (root [("pi-1", 5)]).devices ↔ ∃ w, lookupConn "pi-1" [("pi-1", 5)] = some w) ∧
    (root [("pi-1", 5)]).devices.Nodup :=
  ⟨(status_snapshot_consistent [("pi-1", 5)]).1,
   (status_snapshot_consistent [("pi-1", 5)]).2.1 "pi-1",
   (status_snapshot_consistent [("pi-1", 5)]).2.2 (by decide)⟩

/-- C2 counterexample: the device sends the text `123`, which `json.loads`
parses successfully to a non-dict value; `message.get` then raises
`AttributeError`, which the loop's generic `except Exception` handler turns
into a `break` (src/main.py lines 186-188).  The loop terminates although no
transport-level disconnect or error occurred, contradicting the claim that
only transport events end the loop. -/
theorem sessionLoop_nonobject_terminates_cx :
    sessionLoop "pi-1" [RecvEvent.msg "123"] =
      ([LogEntry.receivedMessage "pi-1" (Json.num 123 0), LogEntry.handlingError "pi-1"],
       LoopExit.handlingError) := rfl

/-- C2 as amended: a message that fails JSON parsing is logged as opaque
text and the loop continues; but a message that parses successfully to a
non-object value makes the per-iteration handler raise (Python
`AttributeError` on `message.get`), which the loop's generic exception
handler turns into a `break` — so besides transport disconnects/errors,
such classification errors also terminate the loop. -/
theorem malformed_payload_handling (id data : String) (rest : List RecvEvent) :
    (jsonParse data = none →
      sessionLoop id (RecvEvent.msg data :: rest) =
        (LogEntry.plainText id data :: (sessionLoop id rest).1, (sessionLoop id rest).2)) ∧
    (∀ v, jsonParse data = some v → (∀ fields, v ≠ Json.obj fields) →
      sessionLoop id (RecvEvent.msg data :: rest) =
        ([LogEntry.receivedMessage id v, LogEntry.handlingError id], LoopExit.handlingError)) := by
  constructor
  · intro hp
    show (match handleData id data with
      | .cont logs =>
        let (ls, ex) := sessionLoop id rest
        (logs ++ ls, ex)
      | .fatal logs => (logs ++ [LogEntry.handlingError id], .handlingError)) = _
    unfold handleData
    rw [hp]
    cases hsl : sessionLoop id rest with
    | mk ls ex => simp
  · intro v hp hno
    show (match handleData id data with
      | .cont logs =>
        let (ls, ex) := sessionLoop id rest
        (logs ++ ls, ex)
      | .fatal logs => (logs ++ [LogEntry.handlingError id], .handlingError)) = _
    unfold handleData
    rw [hp]
    cases v with
    | obj fields => exact absurd rfl (hno fields)
    | null => rfl
    | bool b => rfl
    | num m k => rfl
    | str s => rfl
    | arr es => rfl

/-- Witness for the amended C2: `hello world` fails to parse and the loop
continues after logging it as plain text; `[1]` parses to a non-object and
the loop breaks. -/
theorem malformed_payload_handling_witness :
    sessionLoop "pi-1" [RecvEvent.msg "hello world"] =
      ([LogEntry.plainText "pi-1" "hello world"], LoopExit.stillRunning) ∧
    sessionLoop "pi-1" [RecvEvent.msg "[1]"] =
      ([LogEntry.receivedMessage "pi-1" (Json.arr [Json.num 1 0]), LogEntry.handlingError "pi-1"],
       LoopExit.handlingError) :=
  ⟨(malformed_payload_handling "pi-1" "hello world" []).1 rfl,
   (malformed_payload_handling "pi-1" "[1]" []).2 (Json.arr [Json.num 1 0]) rfl
     (fun _ h => Json.noConfusion h)⟩

/-- C10: an inbound message that parses as a JSON object with no `type`
field is classified with the default `response` and handled on the response
branch (its `data` field is logged), and the iteration completes so the loop
continues. -/
theorem default_type_is_response (id data : String) (fields : List (String × Json))
    (hp : jsonParse data = some (Json.obj fields))
    (hnotype : dictGet fields "type" = none) :
    handleData id data =
      HandleResult.cont [LogEntry.receivedMessage id (Json.obj fields),
        LogEntry.responseData id (dictGetD fields "data" (Json.str ""))] := by
  unfold handleData
  rw [hp]
  simp [dictGetD, hnotype, Json.isStr]

/-- Witness for C10 at the concrete message `{"data": "ok"}`. -/
theorem default_type_is_response_witness :
    handleData "pi-1" "\x7b\"data\": \"ok\"\x7d" =
      HandleResult.cont [LogEntry.receivedMessage "pi-1" (Json.obj [("data", Json.str "ok")]),
        LogEntry.responseData "pi-1" (dictGetD [("data", Json.str "ok")] "data" (Json.str ""))] :=
  default_type_is_response "pi-1" "\x7b\"data\": \"ok\"\x7d" [("data", Json.str "ok")] rfl rfl
